import Mathlib

/-!
Shallow embedding of the `daemon` Go library (listener tracking, flag
replication, fork control and the signal-driven lifecycle supervisor),
together with theorems settling the specification claims.

Modelling conventions:
* Go machine integers are `Int` with explicit range checks where the source
  checks them; counters are `Int` so that "never negative" is a theorem, not
  a typing artifact.
* Pointers to listeners and duplicated file descriptors are modelled as
  opaque numeric identities (`Nat`).
* Channel-based one-shot signals (`stop`, `stopOnce`) are booleans in the
  state; the concurrency-free per-call behaviour of each operation is
  modelled as a pure function from the pre-state (plus the outcome of the
  blocking syscall, supplied as an oracle argument) to the post-state,
  following the source control flow statement by statement.
* Effectful procedures that log, spawn and exit (`Shutdown`, `Restart`,
  `Run`, `Fork`) are modelled as trace generators: the list of externally
  visible events in program order, with the outcome of the drain-vs-timer
  race supplied as an oracle argument.
-/

/-- Go error values returned by the listener paths: the `ErrStopped`
sentinel (`errors.New("daemon: listener stopped")`) or any other error,
identified by its message text. -/
inductive GoErr where
  | errStopped
  | errOther (msg : String)
deriving DecidableEq, Repr

/-- Go `strings.Contains(s, sub)`: `sub` occurs as a contiguous substring
of `s`. -/
def goContains (s sub : String) : Bool := decide (sub.toList <:+: s.toList)

/-- State of a `WaitListener`: whether the one-shot `stop` channel has been
closed, and whether the underlying listener has been closed.  The
connection counter (`sync.WaitGroup`) is tracked separately where claims
need it. -/
structure WaitListener where
  stopped : Bool
  underClosed : Bool
deriving DecidableEq, Repr

/-- `WaitListener.Stop`: `close(w.stop)` only; the underlying listener is
left open (its descriptor survives for inheritance). -/
def WaitListener.Stop (w : WaitListener) : WaitListener :=
  { w with stopped := true }

/-- `WaitListener.Close`: `close(w.stop)` followed by
`w.Listener.Close()`. -/
def WaitListener.Close (_w : WaitListener) : WaitListener :=
  { stopped := true, underClosed := true }

/-- Outcome of the delegated `w.Listener.Accept()` syscall, supplied as an
oracle: either a fresh connection (identified by a number) or an error with
a message. -/
inductive UnderlyingResult where
  | conn (id : Nat)
  | err (msg : String)
deriving DecidableEq, Repr

/-- Counter and control events performed by one call to
`WaitListener.Accept`, in program order. -/
inductive AcceptEv where
  | wgAdd
  | checkStop
  | delegate
  | wgDone
deriving DecidableEq, Repr

/-- Result of one call to `WaitListener.Accept`: a live tracked connection
or an error. -/
inductive AcceptOut where
  | conn (id : Nat)
  | fail (e : GoErr)
deriving DecidableEq, Repr

/-- The substring the source matches against the error text of the
underlying accept. -/
def closedNetMsg : String := "closed network connection"

/-- `WaitListener.Accept`: `w.wg.Add(1)` first; the deferred function does
`w.wg.Done()` whenever no connection is returned.  Then the non-blocking
`select` on `w.stop`, then the delegated accept; an accept error whose text
contains `"closed network connection"` is normalised to `ErrStopped`. -/
def WaitListener.Accept (w : WaitListener) (under : UnderlyingResult) :
    List AcceptEv × AcceptOut :=
  if w.stopped then
    ([.wgAdd, .checkStop, .wgDone], .fail .errStopped)
  else
    match under with
    | .err m =>
        if goContains m closedNetMsg then
          ([.wgAdd, .checkStop, .delegate, .wgDone], .fail .errStopped)
        else
          ([.wgAdd, .checkStop, .delegate, .wgDone], .fail (.errOther m))
    | .conn c => ([.wgAdd, .checkStop, .delegate], .conn c)

/-- Net effect of a sequence of accept events on the wait-group counter. -/
def wgDelta (evs : List AcceptEv) : Int :=
  evs.foldl
    (fun acc e =>
      match e with
      | .wgAdd => acc + 1
      | .wgDone => acc - 1
      | _ => acc)
    0

/-- System state for connection-close tracking: the listener's counter
(Go `sync.WaitGroup` counter, as an integer) and, per accepted tracked
connection, whether its `closeOnce` guard has already fired. -/
structure SysState where
  counter : Int
  conns : List Bool
deriving DecidableEq, Repr

/-- Effect of an `Accept` that returned a live connection: the counter was
speculatively incremented and kept, and a fresh tracked connection with an
unfired once-guard is appended. -/
def acceptConn (st : SysState) : SysState :=
  { counter := st.counter + 1, conns := st.conns ++ [false] }

/-- Result of `waitConn.Close`: either the underlying connection was closed
(first call, inside `closeOnce.Do`, with the deferred `c.Done()`), or the
pre-set `"double close"` error is returned. -/
inductive CloseResult where
  | closedUnder
  | doubleClose
deriving DecidableEq, Repr

/-- `waitConn.Close` on the connection at index `i`: if its once-guard has
not fired, the body runs (underlying close, deferred `Done` decrementing
the counter) and the guard fires; otherwise nothing runs and the
`"double close"` error is returned. -/
def waitConnClose (st : SysState) (i : Nat) : SysState × CloseResult :=
  match st.conns.get? i with
  | some false =>
      ({ counter := st.counter - 1, conns := st.conns.set i true }, .closedUnder)
  | _ => (st, .doubleClose)

/-- Number of accepted connections whose once-guard has not yet fired. -/
def liveCount (st : SysState) : Nat :=
  (st.conns.filter (fun b => !b)).length

/-- Counter invariant: the wait-group counter equals the number of live
(accepted, not yet closed) tracked connections. -/
def CounterInv (st : SysState) : Prop :=
  st.counter = (liveCount st : Int)

/-- A resolved TCP address (`*net.TCPAddr`): the IP rendered as text when
present (`nil` IP is `none`), and the port. -/
structure TCPAddr where
  ip : Option String
  port : Int
deriving DecidableEq, Repr

/-- State of a `listenFlag` value.  `flag` and `proto` come from
registration; `mode` is `"fd"` or `"tcp"`; `fd` is meaningful in `"fd"`
mode; `listener` is the bound `WaitListener` (by identity) once `Listen()`
has run; `netw` and `laddr` come from registration or a parsed address. -/
structure listenFlagState where
  flag : String
  proto : String
  mode : String
  fd : Int
  listener : Option Nat
  netw : String
  laddr : TCPAddr
deriving DecidableEq, Repr

/-- `listenFlag.String`: `":<port>"` when the resolved address has a nil
IP, otherwise the address rendered `"<host>:<port>"` (Go
`l.laddr.String()`).  The `mode` and `fd` fields are never consulted. -/
def listenFlagString (l : listenFlagState) : String :=
  match l.laddr.ip with
  | none => ":" ++ toString l.laddr.port
  | some host => host ++ ":" ++ toString l.laddr.port

/-- Accumulate base-10 digits; fails on any non-digit character. -/
def digitsToNatAux (acc : Nat) : List Char → Option Nat
  | [] => some acc
  | c :: rest =>
      if c.isDigit then digitsToNatAux (acc * 10 + (c.toNat - 48)) rest
      else none

/-- Parse a nonempty all-digit string to a natural number. -/
def digitsToNat : List Char → Option Nat
  | [] => none
  | cs => digitsToNatAux 0 cs

/-- Go `strconv.Atoi` on a 64-bit platform: optional leading sign, base-10
digits, error on empty input, stray characters, or values outside the
signed 64-bit range. -/
def goAtoi (s : String) : Option Int :=
  match s.toList with
  | [] => none
  | c :: rest =>
      let signed : Bool × List Char :=
        if c = '-' then (true, rest)
        else if c = '+' then (false, rest)
        else (false, c :: rest)
      match digitsToNat signed.2 with
      | none => none
      | some n =>
          let v : Int := if signed.1 then -(n : Int) else (n : Int)
          if v < -(2 ^ 63) ∨ (2 ^ 63 - 1 : Int) < v then none else some v

/-- Result of `listenFlag.Set`: the updated flag state, or an error
message. -/
inductive SetResult where
  | ok (l : listenFlagState)
  | err (msg : String)
deriving DecidableEq, Repr

/-- `listenFlag.Set`.  `resolve` is the oracle for
`net.ResolveTCPAddr(l.net, s)` (`none` meaning resolution failed).  Empty
arguments are rejected; an argument starting with `'&'` has its remainder
parsed by `strconv.Atoi` and on success switches the flag to `"fd"` mode;
anything else is resolved as a TCP address and on success switches the flag
to `"tcp"` mode with the new `laddr`. -/
def listenFlagSet (resolve : String → Option TCPAddr) (l : listenFlagState)
    (s : String) : SetResult :=
  if s.length = 0 then .err ("--" ++ l.flag ++ " requires an argument")
  else if s.toList.head? = some '&' then
    match goAtoi ⟨s.toList.drop 1⟩ with
    | none => .err "failed to parse &fd"
    | some fd => .ok { l with mode := "fd", fd := fd }
  else
    match resolve s with
    | none => .err ("failed to resolve " ++ s)
    | some a => .ok { l with mode := "tcp", laddr := a }

/-- State of a `forkFlag` value: the boolean fork request and the pidfile
path. -/
structure forkFlagState where
  fork : Bool
  pidfile : String
deriving DecidableEq, Repr

/-- `forkFlag.String`: `fmt.Sprintf("%v", f.fork)`. -/
def forkFlagString (f : forkFlagState) : String :=
  if f.fork then "true" else "false"

/-- The typed identity of a registered flag's value, as inspected by the
type switch in `copyFlags`: a `*listenFlag`, a `*forkFlag`, or any other
flag value carrying its textual rendering. -/
inductive FlagValue where
  | listenF (lf : listenFlagState)
  | forkF (ff : forkFlagState)
  | otherF (text : String)
deriving DecidableEq, Repr

/-- One registered flag: its name and its value. -/
structure GoFlag where
  name : String
  value : FlagValue
deriving DecidableEq, Repr

/-- The textual value of a flag, as `fmt.Sprintf("%s", f.Value)` renders
it via the value's `String()` method. -/
def flagValueString : FlagValue → String
  | .listenF lf => listenFlagString lf
  | .forkF ff => forkFlagString ff
  | .otherF t => t

/-- The child command under construction (`exec.Cmd`): its argv (starting
with the executable path) and the inheritable extra files, identified by
the duplicated listener they came from. -/
structure Cmd where
  args : List String
  extraFiles : List Nat
deriving DecidableEq, Repr

/-- One iteration of the `flag.VisitAll` body in `copyFlags`: a bound
listener flag is rewritten to `--name=&<fd>` with `fd = 3 +
len(cmd.ExtraFiles)`, its file appended to the extra files and its listener
recorded in `ports`; an unbound listener flag falls through to the generic
case; a fork flag is skipped; any other flag is emitted as
`--name=<textual value>`. -/
def copyFlagsStep (acc : Cmd × List Nat) (f : GoFlag) : Cmd × List Nat :=
  match f.value with
  | .listenF lf =>
      match lf.listener with
      | some lid =>
          let fd := 3 + acc.1.extraFiles.length
          ({ args := acc.1.args ++ ["--" ++ f.name ++ "=&" ++ toString fd],
             extraFiles := acc.1.extraFiles ++ [lid] },
           acc.2 ++ [lid])
      | none =>
          ({ acc.1 with
             args := acc.1.args ++ ["--" ++ f.name ++ "=" ++ flagValueString f.value] },
           acc.2)
  | .forkF _ => acc
  | .otherF _ =>
      ({ acc.1 with
         args := acc.1.args ++ ["--" ++ f.name ++ "=" ++ flagValueString f.value] },
       acc.2)

/-- `copyFlags`: builds the child command from `os.Args[0]` and the
registered flags in the order the registry enumerates them, returning the
command and the listeners to drain. -/
def copyFlags (arg0 : String) (flags : List GoFlag) : Cmd × List Nat :=
  flags.foldl copyFlagsStep ({ args := [arg0], extraFiles := [] }, [])

/-- The `Fatal` log level (Go `Fatal Logger = -1`). -/
def LogFatal : Int := -1

/-- The `Info` log level, the default value of `LogLevel`. -/
def LogInfo : Int := 2

/-- Effect of `Logger.Printf` at level `l` under the current `LogLevel`
`lv`: nothing happens when `l > LogLevel`; otherwise the message is written
and, exactly when `l == Fatal`, the process exits with status 1. -/
structure PrintfEffect where
  logged : Bool
  exits : Bool
deriving DecidableEq, Repr

/-- `Logger.Printf` control effect (message formatting elided). -/
def printfEffect (l lv : Int) : PrintfEffect :=
  if lv < l then ⟨false, false⟩
  else ⟨true, decide (l = LogFatal)⟩

/-- The platform signals the supervisor subscribes to, plus a stand-in for
any other deliverable signal. -/
inductive Sig where
  | SIGINT
  | SIGTERM
  | SIGHUP
  | SIGUSR1
  | otherSig
deriving DecidableEq, Repr

/-- The signal kinds returned by the platform-specific `sigAction`. -/
inductive SigAct where
  | sigUnknown
  | sigShutdown
  | sigRestart
  | sigStackDump
deriving DecidableEq, Repr

/-- `sigAction`: interrupt/terminate map to shutdown, hangup to restart,
user-defined-1 to stack dump, anything else to unknown. -/
def sigAction : Sig → SigAct
  | .SIGINT => .sigShutdown
  | .SIGTERM => .sigShutdown
  | .SIGHUP => .sigRestart
  | .SIGUSR1 => .sigStackDump
  | .otherSig => .sigUnknown

/-- One nanosecond-denominated second (`time.Second`). -/
def timeSecond : Int := 1000000000

/-- `LameDuck = 15 * time.Second`, the timeout the supervisor passes to
`Shutdown` and `Restart`. -/
def LameDuck : Int := 15 * timeSecond

/-- What the dispatch `switch` in `Run` does with a signal once the
single-stop check has been passed. -/
inductive RunEffect where
  | startShutdown (timeout : Int)
  | startRestart (timeout : Int)
  | stackDumped
  | warnUnknown
deriving DecidableEq, Repr

/-- Observable outcome of one iteration of the `Run` loop. -/
structure RunStepOut where
  abortMsg : Option String
  exited : Option Nat
  effect : Option RunEffect
deriving DecidableEq, Repr

/-- The dispatch `switch` in `Run`: shutdown and restart signals launch the
corresponding task with the `LameDuck` timeout, a stack-dump signal writes
the stack trace, anything else logs a warning. -/
def runDispatch (sig : Sig) : RunEffect :=
  match sigAction sig with
  | .sigShutdown => .startShutdown LameDuck
  | .sigRestart => .startRestart LameDuck
  | .sigStackDump => .stackDumped
  | .sigUnknown => .warnUnknown

/-- One iteration of the `Run` loop on a received signal.  First the
non-blocking `select` on `stopOnce`: if the token is available it is taken
and immediately restored and control falls through to the dispatch;
otherwise `Fatal.Printf("Aborted by signal during shutdown")` runs, which
exits with status 1 whenever the fatal level passes the `LogLevel` filter
(and otherwise control still falls through to the dispatch). -/
def runStep (tokenAvailable : Bool) (lv : Int) (sig : Sig) : RunStepOut :=
  if tokenAvailable then
    { abortMsg := none, exited := none, effect := some (runDispatch sig) }
  else
    let p := printfEffect LogFatal lv
    if p.exits then
      { abortMsg := some "Aborted by signal during shutdown",
        exited := some 1, effect := none }
    else
      { abortMsg := none, exited := none, effect := some (runDispatch sig) }

/-- Externally visible events of the `Shutdown` and `Restart` procedures,
in program order. -/
inductive LifeEv where
  | claimTok
  | closeL (p : Nat)
  | stopL (p : Nat)
  | noopL (p : Nat)
  | spawnChild
  | waitL (p : Nat)
  | exited (code : Nat)
deriving DecidableEq, Repr

/-- The drain goroutine's `Wait` calls, one per listener in order.  When
the timer fires first (`drainWins = false`), only the first `drained`
listeners have been waited on. -/
def drainEvents (ports : List Nat) (drained : Nat) (drainWins : Bool) :
    List LifeEv :=
  if drainWins then ports.map .waitL else (ports.take drained).map .waitL

/-- Terminal events of the drain-vs-timer `select`: on a completed drain,
`os.Exit(0)`; on timeout, `Fatal.Printf` (exit status 1 when the fatal
level passes the filter; otherwise control reaches the final `os.Exit(0)`
anyway). -/
def drainTerminal (drainWins : Bool) (lv : Int) : List LifeEv :=
  if drainWins then [.exited 0]
  else if (printfEffect LogFatal lv).exits then [.exited 1]
  else [.exited 0]

/-- `Shutdown(timeout)`: claim the single-stop token, collect the bound
listeners via `copyFlags`, `Close()` each, then race the drain against the
timer. -/
def shutdownRun (arg0 : String) (flags : List GoFlag) (drained : Nat)
    (drainWins : Bool) (lv : Int) : List LifeEv :=
  let ports := (copyFlags arg0 flags).2
  [.claimTok] ++ ports.map .closeL ++ drainEvents ports drained drainWins ++
    drainTerminal drainWins lv

/-- `Restart(timeout)`: claim the single-stop token, collect the child
command and bound listeners via `copyFlags`, `Stop()` then `noop()` each
listener, spawn the child, then race the drain against the timer. -/
def restartRun (arg0 : String) (flags : List GoFlag) (drained : Nat)
    (drainWins : Bool) (lv : Int) : List LifeEv :=
  let ports := (copyFlags arg0 flags).2
  [.claimTok] ++ (ports.flatMap fun p => [.stopL p, .noopL p]) ++ [.spawnChild] ++
    drainEvents ports drained drainWins ++ drainTerminal drainWins lv

/-- Events of `forkFlag.Fork`, in program order. -/
inductive ForkEv where
  | claimTok
  | clearFork
  | buildArgv
  | spawnChild
  | exitOk
  | openPidfile
  | writePid
  | logCreateErr
deriving DecidableEq, Repr

/-- Observable outcome of `forkFlag.Fork`. -/
structure ForkOut where
  events : List ForkEv
  forkAfter : forkFlagState
  spawnedArgs : Option (List String)
  exit : Option Nat
  pidWritten : Option String
deriving DecidableEq, Repr

/-- `forkFlag.Fork`: when the fork flag is set, claim the single-stop
token, clear the in-memory flag, build the child command via `copyFlags`,
spawn it and exit 0.  Otherwise `os.Create` the pidfile (`openOk` is the
oracle for its success): on failure log at error level and return; on
success write `"<pid>\n"`. -/
def forkRun (arg0 : String) (flags : List GoFlag) (f : forkFlagState)
    (openOk : Bool) (pid : Nat) : ForkOut :=
  if f.fork then
    { events := [.claimTok, .clearFork, .buildArgv, .spawnChild, .exitOk]
      forkAfter := { f with fork := false }
      spawnedArgs := some (copyFlags arg0 flags).1.args
      exit := some 0
      pidWritten := none }
  else if openOk then
    { events := [.openPidfile, .writePid]
      forkAfter := f
      spawnedArgs := none
      exit := none
      pidWritten := some (toString pid ++ "\n") }
  else
    { events := [.openPidfile, .logCreateErr]
      forkAfter := f
      spawnedArgs := none
      exit := none
      pidWritten := none }

/-- Whether a flag value is the fork-control flag (the `*forkFlag` arm of
the type switch in `copyFlags`). -/
def isForkFlagValue : FlagValue → Bool
  | .forkF _ => true
  | _ => false

/-- The filter keeping every flag that is not the fork-control flag. -/
def keepFlag (g : GoFlag) : Bool := !isForkFlagValue g.value

/-- A sample listener flag state as registered by
`ListenFlag("echo", "tcp", ":12112", "echo")`. -/
def l0 : listenFlagState :=
  { flag := "echo", proto := "echo", mode := "tcp", fd := 0, listener := none,
    netw := "tcp", laddr := { ip := none, port := 12112 } }

/-- A sample address resolver recognising one literal address. -/
def resolve0 : String → Option TCPAddr :=
  fun s =>
    if s = "127.0.0.1:80" then some { ip := some "127.0.0.1", port := 80 }
    else none

/-- A substring of the platform error text implies the substring the source
matches on: `"use of closed network connection"` contains
`"closed network connection"`. -/
theorem goContains_closed_of_useClosed (m : String)
    (h : goContains m "use of closed network connection" = true) :
    goContains m closedNetMsg = true := by
  have h1 : "use of closed network connection".toList <:+: m.toList :=
    of_decide_eq_true h
  have h2 : closedNetMsg.toList <:+: "use of closed network connection".toList := by
    decide
  exact decide_eq_true (h2.trans h1)

/-- Claim C2: `WaitListener.Accept` increments the connection counter
first, before consulting the stop flag and before delegating to the
underlying accept; on every path that does not return a live connection the
speculative increment is rolled back by exactly one `Done`, so the net
counter change is +1 when a connection is returned and 0 otherwise. -/
theorem C2_accept_counter (w : WaitListener) (under : UnderlyingResult) :
    (w.Accept under).1.head? = some AcceptEv.wgAdd ∧
    (w.Accept under).1.count AcceptEv.wgAdd = 1 ∧
    wgDelta (w.Accept under).1 =
      (match (w.Accept under).2 with
       | .conn _ => 1
       | .fail _ => 0) ∧
    (w.Accept under).1.count AcceptEv.wgDone =
      (match (w.Accept under).2 with
       | .conn _ => 0
       | .fail _ => 1) := by
  obtain ⟨st, uc⟩ := w
  cases under with
  | conn c => cases st <;> simp [WaitListener.Accept, wgDelta]
  | err m =>
      cases st
      · by_cases hm : goContains m closedNetMsg = true <;>
          simp [WaitListener.Accept, wgDelta, hm]
      · simp [WaitListener.Accept, wgDelta]

/-- Claim C3: once the stop signal has fired (via `Stop` or `Close`),
`Accept` returns the `ErrStopped` sentinel and no connection; and an
underlying accept error whose text contains
`"use of closed network connection"` is normalised to the same
sentinel. -/
theorem C3_stopped_sentinel (uc uc2 : Bool) (under under2 under3 : UnderlyingResult)
    (m : String)
    (h : goContains m "use of closed network connection" = true) :
    (WaitListener.Accept ⟨true, uc⟩ under).2 = .fail .errStopped ∧
    (WaitListener.Accept (WaitListener.Stop ⟨false, uc2⟩) under2).2 =
      .fail .errStopped ∧
    (WaitListener.Accept (WaitListener.Close ⟨false, uc2⟩) under3).2 =
      .fail .errStopped ∧
    (WaitListener.Accept ⟨false, uc⟩ (.err m)).2 = .fail .errStopped := by
  refine ⟨rfl, rfl, rfl, ?_⟩
  have h3 := goContains_closed_of_useClosed m h
  simp [WaitListener.Accept, h3]

/-- Witness for C3 at a concrete stopped listener and a concrete
closed-network error message. -/
theorem C3_stopped_sentinel_witness :
    goContains "accept tcp 127.0.0.1:80: use of closed network connection"
        "use of closed network connection" = true ∧
    ((WaitListener.Accept ⟨true, false⟩ (.conn 7)).2 = .fail .errStopped ∧
     (WaitListener.Accept (WaitListener.Stop ⟨false, false⟩) (.conn 8)).2 =
       .fail .errStopped ∧
     (WaitListener.Accept (WaitListener.Close ⟨false, false⟩) (.conn 9)).2 =
       .fail .errStopped ∧
     (WaitListener.Accept ⟨false, false⟩
         (.err "accept tcp 127.0.0.1:80: use of closed network connection")).2 =
       .fail .errStopped) :=
  ⟨by decide,
   C3_stopped_sentinel false false (.conn 7) (.conn 8) (.conn 9)
     "accept tcp 127.0.0.1:80: use of closed network connection" (by decide)⟩

/-- Reading the element at the length of the left part of an append. -/
theorem getAtSplit (pre : List Bool) (x : Bool) (post : List Bool) :
    (pre ++ x :: post).get? pre.length = some x := by
  induction pre with
  | nil => rfl
  | cons b t ih => simpa using ih

/-- Setting the element at the length of the left part of an append. -/
theorem setAtSplit (pre : List Bool) (x y : Bool) (post : List Bool) :
    (pre ++ x :: post).set pre.length y = pre ++ y :: post := by
  induction pre with
  | nil => rfl
  | cons b t ih => simp [ih]

/-- Firing the once-guard of a live connection lowers the live count by
exactly one. -/
theorem liveCount_set (l : List Bool) (i : Nat) (h : l.get? i = some false) :
    ((l.set i true).filter (fun b => !b)).length + 1 =
      (l.filter (fun b => !b)).length := by
  induction l generalizing i with
  | nil => simp at h
  | cons b t ih =>
      cases i with
      | zero =>
          simp only [List.get?] at h
          cases b
          · simp
          · simp at h
      | succ j =>
          simp only [List.get?] at h
          cases b <;> simpa using ih j h

/-- `waitConnClose` preserves the counter invariant, whatever index is
closed. -/
theorem counterInv_close (st : SysState) (i : Nat) (h : CounterInv st) :
    CounterInv (waitConnClose st i).1 := by
  unfold waitConnClose
  rcases hg : st.conns.get? i with _ | b
  · simpa [hg] using h
  · cases b
    · have hl := liveCount_set st.conns i hg
      simp only [hg]
      unfold CounterInv liveCount at h ⊢
      simp only []
      omega
    · simpa [hg] using h

/-- The counter invariant is preserved by any sequence of close calls. -/
theorem counterInv_foldl (ops : List Nat) (st : SysState) (h : CounterInv st) :
    CounterInv (ops.foldl (fun s j => (waitConnClose s j).1) st) := by
  induction ops generalizing st with
  | nil => exact h
  | cons o rest ih => exact ih _ (counterInv_close st o h)

/-- Under the counter invariant the wait-group counter is a count of live
connections, hence nonnegative. -/
theorem counterInv_nonneg (st : SysState) (h : CounterInv st) :
    0 ≤ st.counter := by
  rw [h]
  exact Int.natCast_nonneg _

/-- Claim C4: the first `Close` on a tracked connection closes the
underlying connection and decrements the owning listener's counter exactly
once; any subsequent `Close` on the same connection returns the
`"double close"` error and leaves the state unchanged; consequently, under
the invariant that the counter counts live connections, the counter is
decremented at most once per accepted connection and never becomes
negative, through any sequence of close calls. -/
theorem C4_conn_close (n : Int) (pre post : List Bool) (ops : List Nat)
    (hinv : CounterInv ⟨n, pre ++ false :: post⟩) :
    waitConnClose ⟨n, pre ++ false :: post⟩ pre.length =
      (⟨n - 1, pre ++ true :: post⟩, CloseResult.closedUnder) ∧
    waitConnClose ⟨n, pre ++ true :: post⟩ pre.length =
      (⟨n, pre ++ true :: post⟩, CloseResult.doubleClose) ∧
    CounterInv (waitConnClose ⟨n, pre ++ false :: post⟩ pre.length).1 ∧
    0 ≤ (ops.foldl (fun s j => (waitConnClose s j).1)
          ⟨n, pre ++ false :: post⟩).counter := by
  refine ⟨?_, ?_, ?_, ?_⟩
  · unfold waitConnClose
    simp only [getAtSplit, setAtSplit]
  · unfold waitConnClose
    simp only [getAtSplit]
  · exact counterInv_close _ _ hinv
  · exact counterInv_nonneg _ (counterInv_foldl ops _ hinv)

/-- Witness for C4: one live connection, counter 1, closed twice and then a
stray index. -/
theorem C4_conn_close_witness :
    CounterInv ⟨1, [false]⟩ ∧
    (waitConnClose ⟨1, [false]⟩ 0 = (⟨0, [true]⟩, CloseResult.closedUnder) ∧
     waitConnClose ⟨1, [true]⟩ 0 = (⟨1, [true]⟩, CloseResult.doubleClose) ∧
     CounterInv (waitConnClose ⟨1, [false]⟩ 0).1 ∧
     0 ≤ (([0, 0, 5] : List Nat).foldl (fun s j => (waitConnClose s j).1)
           ⟨1, [false]⟩).counter) :=
  ⟨rfl, C4_conn_close 1 [] [] [0, 0, 5] rfl⟩

/-- Appending one flag to the walked list runs one more step of the
`VisitAll` body on the accumulated command. -/
theorem copyFlags_snoc (arg0 : String) (pre : List GoFlag) (f : GoFlag) :
    copyFlags arg0 (pre ++ [f]) = copyFlagsStep (copyFlags arg0 pre) f := by
  simp [copyFlags, List.foldl_append]

/-- Fork flags contribute nothing to the walk: filtering them out first
yields the same command and ports. -/
theorem copyFlags_fork_erased (acc : Cmd × List Nat) (flags : List GoFlag) :
    (flags.filter keepFlag).foldl copyFlagsStep acc =
      flags.foldl copyFlagsStep acc := by
  induction flags generalizing acc with
  | nil => rfl
  | cons f rest ih =>
      rw [List.filter_cons]
      cases hv : f.value with
      | listenF lf =>
          have hc : keepFlag f = true := by simp [keepFlag, isForkFlagValue, hv]
          simp only [hc, if_true, List.foldl_cons]
          exact ih _
      | forkF ff =>
          have hc : keepFlag f = false := by simp [keepFlag, isForkFlagValue, hv]
          simp only [hc, Bool.false_eq_true, if_false, List.foldl_cons]
          rw [ih]
          congr 1
          simp [copyFlagsStep, hv]
      | otherF t =>
          have hc : keepFlag f = true := by simp [keepFlag, isForkFlagValue, hv]
          simp only [hc, if_true, List.foldl_cons]
          exact ih _

/-- Claim C5: the flag replicator walks the registered flags in order and,
per flag: a bound listener flag is emitted as `--name=&<slot>` where the
slot is 3 plus the number of inheritable files already attached, with the
listener's file appended at that position and its handle recorded; an
unbound listener flag is emitted with its textual value unchanged; the
fork-control flag is skipped entirely (so it never appears in the child's
argv); and every other flag is emitted as `--name=<textual value>`. -/
theorem C5_copyFlags (arg0 : String) (pre : List GoFlag) (name : String)
    (lf : listenFlagState) (lid : Nat) (ff : forkFlagState) (t : String) :
    copyFlags arg0 (pre ++ [⟨name, .listenF { lf with listener := some lid }⟩]) =
      ({ args := (copyFlags arg0 pre).1.args ++
           ["--" ++ name ++ "=&" ++
             toString (3 + (copyFlags arg0 pre).1.extraFiles.length)],
         extraFiles := (copyFlags arg0 pre).1.extraFiles ++ [lid] },
       (copyFlags arg0 pre).2 ++ [lid]) ∧
    copyFlags arg0 (pre ++ [⟨name, .listenF { lf with listener := none }⟩]) =
      ({ (copyFlags arg0 pre).1 with
         args := (copyFlags arg0 pre).1.args ++
           ["--" ++ name ++ "=" ++ listenFlagString lf] },
       (copyFlags arg0 pre).2) ∧
    copyFlags arg0 (pre ++ [⟨name, .forkF ff⟩]) = copyFlags arg0 pre ∧
    copyFlags arg0 (pre ++ [⟨name, .otherF t⟩]) =
      ({ (copyFlags arg0 pre).1 with
         args := (copyFlags arg0 pre).1.args ++ ["--" ++ name ++ "=" ++ t] },
       (copyFlags arg0 pre).2) ∧
    copyFlags arg0 ([] : List GoFlag) =
      ({ args := [arg0], extraFiles := [] }, []) ∧
    copyFlags arg0 (pre.filter keepFlag) = copyFlags arg0 pre := by
  refine ⟨?_, ?_, ?_, ?_, rfl, ?_⟩
  · rw [copyFlags_snoc]
    rfl
  · rw [copyFlags_snoc]
    rfl
  · rw [copyFlags_snoc]
    rfl
  · rw [copyFlags_snoc]
    rfl
  · exact copyFlags_fork_erased _ pre

/-- Claim C8: when the fork flag is set, `Fork` claims the single-stop
token, clears the in-memory fork flag, builds the child argv via the flag
replicator, spawns the child and exits the parent with status 0; otherwise
it opens the pidfile for write-create and writes `<pid>\n`, and a pidfile
open failure is logged at error level but `Fork` returns normally without
writing anything. -/
theorem C8_fork (arg0 : String) (flags : List GoFlag) (pf : String)
    (openOk : Bool) (pid : Nat) :
    forkRun arg0 flags ⟨true, pf⟩ openOk pid =
      { events := [.claimTok, .clearFork, .buildArgv, .spawnChild, .exitOk],
        forkAfter := ⟨false, pf⟩,
        spawnedArgs := some (copyFlags arg0 flags).1.args,
        exit := some 0,
        pidWritten := none } ∧
    forkRun arg0 flags ⟨false, pf⟩ true pid =
      { events := [.openPidfile, .writePid],
        forkAfter := ⟨false, pf⟩,
        spawnedArgs := none,
        exit := none,
        pidWritten := some (toString pid ++ "\n") } ∧
    forkRun arg0 flags ⟨false, pf⟩ false pid =
      { events := [.openPidfile, .logCreateErr],
        forkAfter := ⟨false, pf⟩,
        spawnedArgs := none,
        exit := none,
        pidWritten := none } :=
  ⟨rfl, rfl, rfl⟩

/-- The `Set` path for an argument starting with `'&'` reduces to
`strconv.Atoi` on the remainder. -/
theorem listenFlagSet_amp (resolve : String → Option TCPAddr)
    (l : listenFlagState) (rest : String) :
    listenFlagSet resolve l ("&" ++ rest) =
      (match goAtoi rest with
       | none => SetResult.err "failed to parse &fd"
       | some fd => SetResult.ok { l with mode := "fd", fd := fd }) := by
  have h1 : ("&" ++ rest).length = rest.length + 1 := rfl
  have hc : ("&" ++ rest).toList.head? = some '&' := rfl
  unfold listenFlagSet
  rw [if_neg (by omega), if_pos hc]
  rfl

/-- The `Set` path for a nonempty argument not starting with `'&'` reduces
to address resolution. -/
theorem listenFlagSet_addr (resolve : String → Option TCPAddr)
    (l : listenFlagState) (s : String) (h3 : ¬s.length = 0)
    (h4 : ¬s.toList.head? = some '&') :
    listenFlagSet resolve l s =
      (match resolve s with
       | none => SetResult.err ("failed to resolve " ++ s)
       | some a => SetResult.ok { l with mode := "tcp", laddr := a }) := by
  unfold listenFlagSet
  rw [if_neg h3, if_neg h4]

/-- Counterexample to claim C9: the code parses the remainder after `'&'`
with `strconv.Atoi`, which accepts negative integers, so `"&-1"` is not
rejected as a parse error; the flag enters fd mode with the negative
descriptor -1. -/
theorem C9_counterexample :
    listenFlagSet (fun _ => none) l0 "&-1" =
      SetResult.ok { l0 with mode := "fd", fd := -1 } ∧
    (-1 : Int) < 0 := by
  refine ⟨?_, by decide⟩
  decide

/-- Claim C9 as amended: `Set` rejects the empty string; an argument
starting with `'&'` has its remainder parsed by `strconv.Atoi` as a
possibly signed base-10 integer (64-bit range), entering the pending-fd
state on success (negative descriptors included) and failing with a parse
error otherwise; any other argument is resolved as a TCP address, entering
the pending-address state on success and failing with a parse error on
resolution failure. -/
theorem C9_amended (resolve : String → Option TCPAddr) (l : listenFlagState)
    (rest1 rest2 s1 s2 : String) (a : TCPAddr) (fd : Int)
    (h1 : goAtoi rest1 = some fd)
    (h2 : goAtoi rest2 = none)
    (h3 : ¬s1.length = 0) (h4 : ¬s1.toList.head? = some '&')
    (h5 : resolve s1 = some a)
    (h6 : ¬s2.length = 0) (h7 : ¬s2.toList.head? = some '&')
    (h8 : resolve s2 = none) :
    listenFlagSet resolve l "" =
      SetResult.err ("--" ++ l.flag ++ " requires an argument") ∧
    listenFlagSet resolve l ("&" ++ rest1) =
      SetResult.ok { l with mode := "fd", fd := fd } ∧
    listenFlagSet resolve l ("&" ++ rest2) =
      SetResult.err "failed to parse &fd" ∧
    listenFlagSet resolve l s1 =
      SetResult.ok { l with mode := "tcp", laddr := a } ∧
    listenFlagSet resolve l s2 =
      SetResult.err ("failed to resolve " ++ s2) := by
  refine ⟨rfl, ?_, ?_, ?_, ?_⟩
  · rw [listenFlagSet_amp, h1]
  · rw [listenFlagSet_amp, h2]
  · rw [listenFlagSet_addr resolve l s1 h3 h4, h5]
  · rw [listenFlagSet_addr resolve l s2 h6 h7, h8]

/-- Witness for the amended C9 at concrete inputs: `""`, `"&4"`, `"&x"`,
a resolvable address and an unresolvable one. -/
theorem C9_amended_witness :
    (goAtoi "4" = some 4 ∧ goAtoi "x" = none ∧
     ¬("127.0.0.1:80" : String).length = 0 ∧
     ¬("127.0.0.1:80" : String).toList.head? = some '&' ∧
     resolve0 "127.0.0.1:80" = some { ip := some "127.0.0.1", port := 80 } ∧
     ¬("zzz" : String).length = 0 ∧
     ¬("zzz" : String).toList.head? = some '&' ∧
     resolve0 "zzz" = none) ∧
    (listenFlagSet resolve0 l0 "" =
       SetResult.err ("--" ++ l0.flag ++ " requires an argument") ∧
     listenFlagSet resolve0 l0 ("&" ++ "4") =
       SetResult.ok { l0 with mode := "fd", fd := 4 } ∧
     listenFlagSet resolve0 l0 ("&" ++ "x") =
       SetResult.err "failed to parse &fd" ∧
     listenFlagSet resolve0 l0 "127.0.0.1:80" =
       SetResult.ok
         { l0 with mode := "tcp", laddr := ⟨some "127.0.0.1", 80⟩ } ∧
     listenFlagSet resolve0 l0 "zzz" =
       SetResult.err ("failed to resolve " ++ "zzz")) :=
  ⟨⟨by decide, by decide, by decide, by decide, by decide, by decide, by decide,
    by decide⟩,
   C9_amended resolve0 l0 "4" "x" "127.0.0.1:80" "zzz"
     { ip := some "127.0.0.1", port := 80 } 4
     (by decide) (by decide) (by decide) (by decide) (by decide)
     (by decide) (by decide) (by decide)⟩

/-- Claim C10: setting a listener flag to a descriptor value `&N` leaves
the stored resolved address `laddr` unchanged, so `String()` on the
resulting pending-fd flag still renders the earlier address, and the flag
replicator emits that stale textual address for an fd-mode flag that was
never bound via `Listen()`. -/
theorem C10_fd_preserves_laddr (arg0 : String) (pre : List GoFlag)
    (name : String) (resolve : String → Option TCPAddr)
    (lf : listenFlagState) (rest : String) (fd : Int)
    (h : goAtoi rest = some fd) :
    listenFlagSet resolve { lf with listener := none } ("&" ++ rest) =
      SetResult.ok { lf with listener := none, mode := "fd", fd := fd } ∧
    ({ lf with listener := none, mode := "fd", fd := fd } :
        listenFlagState).laddr = lf.laddr ∧
    listenFlagString { lf with listener := none, mode := "fd", fd := fd } =
      listenFlagString lf ∧
    copyFlags arg0
        (pre ++ [⟨name,
          .listenF { lf with listener := none, mode := "fd", fd := fd }⟩]) =
      ({ (copyFlags arg0 pre).1 with
         args := (copyFlags arg0 pre).1.args ++
           ["--" ++ name ++ "=" ++ listenFlagString lf] },
       (copyFlags arg0 pre).2) := by
  refine ⟨?_, rfl, rfl, ?_⟩
  · rw [listenFlagSet_amp, h]
  · rw [copyFlags_snoc]
    rfl

/-- Witness for C10 at the sample registration default `:12112` set to
`"&3"`. -/
theorem C10_fd_preserves_laddr_witness :
    goAtoi "3" = some 3 ∧
    (listenFlagSet resolve0 { l0 with listener := none } ("&" ++ "3") =
       SetResult.ok { l0 with listener := none, mode := "fd", fd := 3 } ∧
     ({ l0 with listener := none, mode := "fd", fd := 3 } :
         listenFlagState).laddr = l0.laddr ∧
     listenFlagString { l0 with listener := none, mode := "fd", fd := 3 } =
       listenFlagString l0 ∧
     copyFlags "echo"
         [⟨"echo",
           .listenF { l0 with listener := none, mode := "fd", fd := 3 }⟩] =
       ({ (copyFlags "echo" ([] : List GoFlag)).1 with
          args := (copyFlags "echo" ([] : List GoFlag)).1.args ++
            ["--" ++ "echo" ++ "=" ++ listenFlagString l0] },
        (copyFlags "echo" ([] : List GoFlag)).2)) :=
  ⟨by decide,
   C10_fd_preserves_laddr "echo" [] "echo" resolve0 l0 "3" 3 (by decide)⟩

/-- Counterexample to claim C1: while the single-stop token is claimed,
the supervisor's per-signal check runs before the dispatch switch, so even
a stack-dump signal (SIGUSR1) received in that state causes fatal
termination with exit status 1 and the message
`"Aborted by signal during shutdown"`; no stack trace is written. -/
theorem C1_counterexample :
    runStep false LogInfo Sig.SIGUSR1 =
      { abortMsg := some "Aborted by signal during shutdown",
        exited := some 1, effect := none } ∧
    (runStep false LogInfo Sig.SIGUSR1).effect ≠ some RunEffect.stackDumped := by
  refine ⟨?_, ?_⟩ <;> decide

/-- Claim C1 as amended: while a shutdown or restart task holds the
single-stop token, any signal delivered to the supervisor — shutdown,
restart, stack-dump or unknown alike — causes immediate fatal termination
with exit status 1 and the message `"Aborted by signal during shutdown"`
(capitalised as in the source); stack-dump signals are serviced only while
the token is still available. -/
theorem C1_amended (lv : Int) (sig : Sig) (h : LogFatal ≤ lv) :
    runStep false lv sig =
      { abortMsg := some "Aborted by signal during shutdown",
        exited := some 1, effect := none } ∧
    runStep true lv Sig.SIGUSR1 =
      { abortMsg := none, exited := none, effect := some RunEffect.stackDumped } ∧
    runStep true lv Sig.SIGINT =
      { abortMsg := none, exited := none,
        effect := some (RunEffect.startShutdown LameDuck) } ∧
    runStep true lv Sig.SIGTERM =
      { abortMsg := none, exited := none,
        effect := some (RunEffect.startShutdown LameDuck) } ∧
    runStep true lv Sig.SIGHUP =
      { abortMsg := none, exited := none,
        effect := some (RunEffect.startRestart LameDuck) } := by
  have hp : (printfEffect LogFatal lv).exits = true := by
    unfold printfEffect
    rw [if_neg (by omega)]
    simp
  refine ⟨?_, rfl, rfl, rfl, rfl⟩
  unfold runStep
  rw [if_neg (by simp)]
  simp only [hp, if_true]

/-- Witness for the amended C1 at the default log level and a hangup
signal. -/
theorem C1_amended_witness :
    LogFatal ≤ LogInfo ∧
    (runStep false LogInfo Sig.SIGHUP =
       { abortMsg := some "Aborted by signal during shutdown",
         exited := some 1, effect := none } ∧
     runStep true LogInfo Sig.SIGUSR1 =
       { abortMsg := none, exited := none,
         effect := some RunEffect.stackDumped } ∧
     runStep true LogInfo Sig.SIGINT =
       { abortMsg := none, exited := none,
         effect := some (RunEffect.startShutdown LameDuck) } ∧
     runStep true LogInfo Sig.SIGTERM =
       { abortMsg := none, exited := none,
         effect := some (RunEffect.startShutdown LameDuck) } ∧
     runStep true LogInfo Sig.SIGHUP =
       { abortMsg := none, exited := none,
         effect := some (RunEffect.startRestart LameDuck) }) :=
  ⟨by decide, C1_amended LogInfo Sig.SIGHUP (by decide)⟩

/-- Claim C7: `Shutdown(timeout)` claims the single-stop token, calls
`Close()` on every bound listener (those collected by the flag replicator),
then races a drain (`Wait` on each listener in turn) against the timer; if
the drain wins the process exits with status 0, and if the timer wins it
terminates fatally with status 1.  The timeout used by the supervisor is
`LameDuck = 15 * time.Second`. -/
theorem C7_shutdown (arg0 : String) (flags : List GoFlag) (drained : Nat)
    (lv : Int) (h : LogFatal ≤ lv) :
    shutdownRun arg0 flags drained true lv =
      [LifeEv.claimTok] ++ (copyFlags arg0 flags).2.map LifeEv.closeL ++
        (copyFlags arg0 flags).2.map LifeEv.waitL ++ [LifeEv.exited 0] ∧
    shutdownRun arg0 flags drained false lv =
      [LifeEv.claimTok] ++ (copyFlags arg0 flags).2.map LifeEv.closeL ++
        ((copyFlags arg0 flags).2.take drained).map LifeEv.waitL ++
        [LifeEv.exited 1] ∧
    LameDuck = 15 * timeSecond ∧
    (runStep true lv Sig.SIGINT).effect =
      some (RunEffect.startShutdown LameDuck) ∧
    (runStep true lv Sig.SIGTERM).effect =
      some (RunEffect.startShutdown LameDuck) := by
  have hp : (printfEffect LogFatal lv).exits = true := by
    unfold printfEffect
    rw [if_neg (by omega)]
    simp
  refine ⟨?_, ?_, rfl, rfl, rfl⟩
  · simp [shutdownRun, drainEvents, drainTerminal, List.append_assoc]
  · simp [shutdownRun, drainEvents, drainTerminal, hp, List.append_assoc]

/-- Witness for C7 with one bound listener at the default log level. -/
theorem C7_shutdown_witness :
    LogFatal ≤ LogInfo ∧
    (shutdownRun "echo"
         [⟨"echo", FlagValue.listenF { l0 with listener := some 41 }⟩]
         0 true LogInfo =
       [LifeEv.claimTok] ++
         (copyFlags "echo"
           [⟨"echo", FlagValue.listenF
               { l0 with listener := some 41 }⟩]).2.map LifeEv.closeL ++
         (copyFlags "echo"
           [⟨"echo", FlagValue.listenF
               { l0 with listener := some 41 }⟩]).2.map LifeEv.waitL ++
         [LifeEv.exited 0] ∧
     shutdownRun "echo"
         [⟨"echo", FlagValue.listenF { l0 with listener := some 41 }⟩]
         0 false LogInfo =
       [LifeEv.claimTok] ++
         (copyFlags "echo"
           [⟨"echo", FlagValue.listenF
               { l0 with listener := some 41 }⟩]).2.map LifeEv.closeL ++
         ((copyFlags "echo"
           [⟨"echo", FlagValue.listenF
               { l0 with listener := some 41 }⟩]).2.take 0).map LifeEv.waitL ++
         [LifeEv.exited 1] ∧
     LameDuck = 15 * timeSecond ∧
     (runStep true LogInfo Sig.SIGINT).effect =
       some (RunEffect.startShutdown LameDuck) ∧
     (runStep true LogInfo Sig.SIGTERM).effect =
       some (RunEffect.startShutdown LameDuck)) :=
  ⟨by decide,
   C7_shutdown "echo"
     [⟨"echo", FlagValue.listenF { l0 with listener := some 41 }⟩]
     0 LogInfo (by decide)⟩

/-- In the stop/noop block of the restart path, every listener's stop event
is immediately followed by its noop event. -/
theorem blockAdj (ports : List Nat) (p : Nat) (hp : p ∈ ports) :
    ∃ i, (ports.flatMap fun q => [LifeEv.stopL q, LifeEv.noopL q]).get? i =
        some (LifeEv.stopL p) ∧
      (ports.flatMap fun q => [LifeEv.stopL q, LifeEv.noopL q]).get? (i + 1) =
        some (LifeEv.noopL p) := by
  induction ports with
  | nil => cases hp
  | cons q rest ih =>
      rcases List.mem_cons.mp hp with hq | hq
      · subst hq
        exact ⟨0, by simp, by simp⟩
      · obtain ⟨i, hi1, hi2⟩ := ih hq
        refine ⟨i + 2, ?_, ?_⟩
        · simpa using hi1
        · simpa using hi2

/-- The stop/noop block contains only stop and noop events. -/
theorem blockMem (ports : List Nat) (e : LifeEv)
    (he : e ∈ ports.flatMap fun q => [LifeEv.stopL q, LifeEv.noopL q]) :
    ∃ q, e = LifeEv.stopL q ∨ e = LifeEv.noopL q := by
  simp only [List.mem_flatMap, List.mem_cons, List.mem_singleton,
    List.not_mem_nil, or_false] at he
  obtain ⟨q, -, hq⟩ := he
  exact ⟨q, hq⟩

/-- Claim C6: in the restart procedure, each listener's `Stop()` happens
strictly before its unblocking `noop()` (in fact immediately before), the
child is spawned before any `Wait` of the parent's drain, and `Stop()`
fires the stop signal while leaving the underlying listener descriptor
open. -/
theorem C6_restart_ordering (arg0 : String) (flags : List GoFlag)
    (drained : Nat) (drainWins : Bool) (lv : Int) (p : Nat) (w : WaitListener)
    (hp : p ∈ (copyFlags arg0 flags).2) :
    (∃ i, (restartRun arg0 flags drained drainWins lv).get? i =
        some (LifeEv.stopL p) ∧
      (restartRun arg0 flags drained drainWins lv).get? (i + 1) =
        some (LifeEv.noopL p)) ∧
    (∃ s, (restartRun arg0 flags drained drainWins lv).get? s =
        some LifeEv.spawnChild ∧
      ∀ j q, (restartRun arg0 flags drained drainWins lv).get? j =
          some (LifeEv.waitL q) → s < j) ∧
    (WaitListener.Stop w).stopped = true ∧
    (WaitListener.Stop w).underClosed = w.underClosed := by
  have ht : restartRun arg0 flags drained drainWins lv =
      LifeEv.claimTok ::
        (((copyFlags arg0 flags).2.flatMap
            fun q => [LifeEv.stopL q, LifeEv.noopL q]) ++
          (LifeEv.spawnChild ::
            (drainEvents (copyFlags arg0 flags).2 drained drainWins ++
              drainTerminal drainWins lv))) := by
    simp [restartRun, List.append_assoc]
  refine ⟨?_, ?_, rfl, rfl⟩
  · obtain ⟨i, hi1, hi2⟩ :=
      blockAdj (copyFlags arg0 flags).2 p hp
    obtain ⟨hlt1, -⟩ := List.get?_eq_some.mp hi1
    obtain ⟨hlt2, -⟩ := List.get?_eq_some.mp hi2
    refine ⟨i + 1, ?_, ?_⟩
    · rw [ht, List.get?_cons_succ, List.get?_append hlt1]
      exact hi1
    · rw [ht, List.get?_cons_succ, List.get?_append hlt2]
      exact hi2
  · refine ⟨((copyFlags arg0 flags).2.flatMap
        fun q => [LifeEv.stopL q, LifeEv.noopL q]).length + 1, ?_, ?_⟩
    · rw [ht, List.get?_cons_succ, List.get?_append_right (le_refl _)]
      simp
    · intro j q hj
      rw [ht] at hj
      by_contra hle
      push_neg at hle
      match j, hj with
      | 0, hj => simp at hj
      | j' + 1, hj =>
          rw [List.get?_cons_succ] at hj
          have hj'le : j' ≤ ((copyFlags arg0 flags).2.flatMap
              fun q => [LifeEv.stopL q, LifeEv.noopL q]).length := by
            omega
          rcases lt_or_eq_of_le hj'le with hlt | heq
          · rw [List.get?_append hlt] at hj
            obtain ⟨r, hr⟩ := blockMem _ _ (List.get?_mem hj)
            rcases hr with hr | hr <;> simp at hr
          · rw [List.get?_append_right (le_of_eq heq.symm), heq] at hj
            simp at hj

/-- Witness for C6 with one bound listener. -/
theorem C6_restart_ordering_witness :
    41 ∈ (copyFlags "echo"
        [⟨"echo", FlagValue.listenF { l0 with listener := some 41 }⟩]).2 ∧
    ((∃ i, (restartRun "echo"
          [⟨"echo", FlagValue.listenF { l0 with listener := some 41 }⟩]
          0 true LogInfo).get? i = some (LifeEv.stopL 41) ∧
        (restartRun "echo"
          [⟨"echo", FlagValue.listenF { l0 with listener := some 41 }⟩]
          0 true LogInfo).get? (i + 1) = some (LifeEv.noopL 41)) ∧
     (∃ s, (restartRun "echo"
          [⟨"echo", FlagValue.listenF { l0 with listener := some 41 }⟩]
          0 true LogInfo).get? s = some LifeEv.spawnChild ∧
        ∀ j q, (restartRun "echo"
            [⟨"echo", FlagValue.listenF { l0 with listener := some 41 }⟩]
            0 true LogInfo).get? j = some (LifeEv.waitL q) → s < j) ∧
     (WaitListener.Stop ⟨false, false⟩).stopped = true ∧
     (WaitListener.Stop ⟨false, false⟩).underClosed =
       (⟨false, false⟩ : WaitListener).underClosed) :=
  ⟨by decide,
   C6_restart_ordering "echo"
     [⟨"echo", FlagValue.listenF { l0 with listener := some 41 }⟩]
     0 true LogInfo 41 ⟨false, false⟩ (by decide)⟩
